import Mathlib

/-!
Verification of the aggregation / threshold-detection pipeline of
`src/streamlit_app.py` (Nairobi pollution monitoring dashboard).

The pipeline is embedded shallowly:
* an hourly observation is a record of a timestamp (hours since an epoch,
  UTC) and the three pollutant concentrations (`ozone`, `pm`, `no`),
  modelled as rationals;
* `pandas`' `Series.rolling(window=w, min_periods=1)` with an integer
  window is a positional (count-based) trailing window over the last `w`
  rows, reduced by `mean` or `max`;
* `groupby('day').agg(...)` buckets rows by the local calendar day
  (`Africa/Nairobi` is UTC+3 all year, so the local day of hour `t` is
  `(t + 3) / 24`) with group keys sorted ascending;
* threshold evaluation `df[df[col] > T]` is a strict `>` filter;
* `pd.concat` of the per-response frames is list concatenation.
-/

/-- One hourly observation row: UTC timestamp in whole hours since an
epoch, and the three pollutant concentrations in µg/m³. -/
structure Obs where
  time : ℕ
  ozone : ℚ
  pm : ℚ
  no : ℚ
deriving DecidableEq

/-- Local calendar day in `Africa/Nairobi` (fixed offset UTC+3, no DST)
of a UTC timestamp given in hours: `df['date'].dt.tz_convert('Africa/Nairobi').dt.date`. -/
def localDay (t : ℕ) : ℕ := (t + 3) / 24

/-- Arithmetic mean used by pandas `mean` aggregation (on batches with no
missing values). The empty case is never used by the pipeline. -/
def qmean (l : List ℚ) : ℚ := l.sum / l.length

/-- `max` aggregation over a batch of values, as pandas `max`. -/
def qmax : List ℚ → ℚ
  | [] => 0
  | x :: xs => xs.foldl max x

/-- The slice of rows a positional rolling window sees at row `i`:
the rows at positions `i+1-w .. i` (pandas integer-window semantics). -/
def windowSlice (w : ℕ) (xs : List ℚ) (i : ℕ) : List ℚ :=
  (xs.take (i + 1)).drop (i + 1 - w)

/-- `Series.rolling(window=w, min_periods=1)` followed by a reduction `f`:
entry `i` is `f` of the last `min (w, i+1)` rows. -/
def rollingApply (w : ℕ) (f : List ℚ → ℚ) (xs : List ℚ) : List ℚ :=
  (List.range xs.length).map (fun i => f (windowSlice w xs i))

/-- `combined_df['ozone_8hr_rolling'] = combined_df['ozone'].rolling(window=8, min_periods=1).mean()`. -/
def ozone_8hr_rolling (store : List Obs) : List ℚ :=
  rollingApply 8 qmean (store.map Obs.ozone)

/-- `combined_df['no2_24hr_rolling_max'] = combined_df['no'].rolling(window=24, min_periods=1).max()`. -/
def no2_24hr_rolling_max (store : List Obs) : List ℚ :=
  rollingApply 24 qmax (store.map Obs.no)

/-- A row of `combined_df` after the rolling columns have been added:
the raw columns, the `day` column, and the two derived rolling columns. -/
structure CRow where
  time : ℕ
  ozone : ℚ
  pm : ℚ
  no : ℚ
  day : ℕ
  ozone_8hr_rolling : ℚ
  no2_24hr_rolling_max : ℚ
deriving DecidableEq

/-- Build one `combined_df` row from a raw observation and its two
rolling-column values. -/
def mkCRow (o : Obs) (p : ℚ × ℚ) : CRow :=
  ⟨o.time, o.ozone, o.pm, o.no, localDay o.time, p.1, p.2⟩

/-- `combined_df` after lines 110 and 116: each observation row paired
with the `day` column and its two rolling-column values. -/
def combinedFrame (store : List Obs) : List CRow :=
  List.zipWith mkCRow store ((ozone_8hr_rolling store).zip (no2_24hr_rolling_max store))

/-- The raw part of a `combined_df` row (the ingested observation). -/
def CRow.raw (r : CRow) : Obs := ⟨r.time, r.ozone, r.pm, r.no⟩

/-- One row of `df_daily`. -/
structure DailyRow where
  day : ℕ
  daily_ozone_mean : ℚ
  daily_pm_average : ℚ
  ozone_8hr_rolling_daily_mean : ℚ
  daily_no2_max : ℚ
  no2_24hr_rolling_daily_mean : ℚ
deriving DecidableEq

/-- The distinct local days of the store, ascending — the group keys of
`combined_df.groupby('day')` (pandas sorts group keys). -/
def bucketDays (store : List Obs) : List ℕ :=
  List.insertionSort (· ≤ ·) ((store.map (fun o => localDay o.time)).dedup)

/-- `df_daily = combined_df.groupby('day').agg(...).reset_index()`:
one row per distinct local day, with the five configured aggregates. -/
def df_daily (store : List Obs) : List DailyRow :=
  (bucketDays store).map (fun d =>
    let rows := (combinedFrame store).filter (fun r => r.day == d)
    { day := d
      daily_ozone_mean := qmean (rows.map CRow.ozone)
      daily_pm_average := qmean (rows.map CRow.pm)
      ozone_8hr_rolling_daily_mean := qmean (rows.map CRow.ozone_8hr_rolling)
      daily_no2_max := qmax (rows.map CRow.no)
      no2_24hr_rolling_daily_mean := qmean (rows.map CRow.no2_24hr_rolling_max) })

/-- Threshold evaluation `df[df[col] > T]`: keep the rows whose value in
the evaluated column strictly exceeds the threshold. -/
def evaluateGT {α : Type} (val : α → ℚ) (T : ℚ) (s : List α) : List α :=
  s.filter (fun e => decide (T < val e))

/-- `above_hourly = combined_df[combined_df['ozone_8hr_rolling'] > 100]`. -/
def above_hourly (store : List Obs) : List CRow :=
  evaluateGT CRow.ozone_8hr_rolling 100 (combinedFrame store)

/-- `above_no2 = combined_df[combined_df['no2_24hr_rolling_max'] > 40]`. -/
def above_no2 (store : List Obs) : List CRow :=
  evaluateGT CRow.no2_24hr_rolling_max 40 (combinedFrame store)

/-- `above_threshold_pm = df_daily[df_daily['daily_pm_average'] > 15]`. -/
def above_threshold_pm (store : List Obs) : List DailyRow :=
  evaluateGT DailyRow.daily_pm_average 15 (df_daily store)

/-- `above = df_daily[df_daily['daily_no2_max'] > 20]`. -/
def above (store : List Obs) : List DailyRow :=
  evaluateGT DailyRow.daily_no2_max 20 (df_daily store)

/-- `combined_df = pd.concat(all_hourly_data)`: the per-response frames
are concatenated as-is (no merging of rows sharing a timestamp). -/
def ingest (segments : List (List Obs)) : List Obs := segments.flatten

/-- Outcome of one pipeline run: either the no-data branch (the script
only prints an informational message) or all derived outputs. -/
inductive PipelineResult where
  | noData : PipelineResult
  | ok : List CRow → List DailyRow → List CRow → List CRow →
      List DailyRow → List DailyRow → PipelineResult
deriving DecidableEq

/-- The run guarded by `if 'combined_df' in locals() and not combined_df.empty`:
an empty combined store short-circuits to the no-data outcome and no
rolling, daily or threshold computation is performed. -/
def runPipeline (segments : List (List Obs)) : PipelineResult :=
  let c := ingest segments
  if c.isEmpty then PipelineResult.noData
  else PipelineResult.ok (combinedFrame c) (df_daily c)
    (above_hourly c) (above_no2 c) (above_threshold_pm c) (above c)

/-- The columns of `combined_df` before the rolling stage (after
`set_index('date')`): the three pollutant columns and `day`. -/
def base_columns : List String := ["ozone", "pm", "no", "day"]

/-- The columns of `combined_df` after lines 110 and 116 have run. -/
def columns_after_rolling : List String :=
  ["ozone", "pm", "no", "day", "ozone_8hr_rolling", "no2_24hr_rolling_max"]

/-- The spec's words (§4.2), for comparison with the code: the window of
the entry with timestamp `t` is the set of observations with timestamp in
`(t − w·1h, t]`, reduced (here for the ozone/mean configuration). -/
def rollingMeanTimeSpec (w : ℕ) (store : List Obs) (t : ℕ) : ℚ :=
  qmean ((store.filter (fun o => decide (t < o.time + w) && decide (o.time ≤ t))).map Obs.ozone)

/-- The positional window as a set of row positions: the values at the
positions `p` with `i − w < p ≤ i` (count-based, blind to timestamps). -/
def posWindow (w : ℕ) (xs : List ℚ) (i : ℕ) : List ℚ :=
  ((xs.enum).filter (fun p => decide (i < p.1 + w) && decide (p.1 ≤ i))).map Prod.snd

/-- The rolling series of 8-hour ozone means as (timestamp, value) pairs,
aligned index-for-index with the store. -/
def ozoneRollingSeries (store : List Obs) : List (ℕ × ℚ) :=
  (store.map Obs.time).zip (ozone_8hr_rolling store)

/-- The rolling series of 24-hour NO2 maxima as (timestamp, value) pairs,
aligned index-for-index with the store. -/
def no2RollingSeries (store : List Obs) : List (ℕ × ℚ) :=
  (store.map Obs.time).zip (no2_24hr_rolling_max store)

/-! ### Concrete stores used by the claims -/

/-- The spec's §8 scenario: ten consecutive hourly ozone values starting
at 00:00 (hour 0). -/
def c2store : List Obs :=
  [⟨0,50,0,0⟩, ⟨1,60,0,0⟩, ⟨2,70,0,0⟩, ⟨3,80,0,0⟩, ⟨4,90,0,0⟩,
   ⟨5,100,0,0⟩, ⟨6,110,0,0⟩, ⟨7,120,0,0⟩, ⟨8,130,0,0⟩, ⟨9,140,0,0⟩]

/-- A gapped series: seven consecutive hours, then a 14-hour gap before
hour 20. Ozone is 80 at hour 0 and 0 elsewhere. -/
def gapStore : List Obs :=
  [⟨0,80,0,0⟩, ⟨1,0,0,0⟩, ⟨2,0,0,0⟩, ⟨3,0,0,0⟩, ⟨4,0,0,0⟩, ⟨5,0,0,0⟩, ⟨6,0,0,0⟩, ⟨20,0,0,0⟩]

/-! ### Generic lemmas about the positional rolling window -/

/-- Filtering an index-decorated list to an index interval `[lo, hi)` and
projecting the values yields the `take`/`drop` slice of the list. -/
lemma enumFrom_filter_slice (lo hi : ℕ) :
    ∀ (xs : List ℚ) (n : ℕ),
      ((List.enumFrom n xs).filter (fun p => decide (lo ≤ p.1) && decide (p.1 < hi))).map Prod.snd
        = (xs.take (hi - n)).drop (lo - n) := by
  intro xs
  induction xs with
  | nil => intro n; simp
  | cons a tl ih =>
    intro n
    rw [List.enumFrom_cons]
    by_cases hlo : lo ≤ n
    · by_cases hhi : n < hi
      · rw [List.filter_cons_of_pos (by simp [hlo, hhi]), List.map_cons, ih (n+1)]
        have h1 : hi - n = (hi - (n+1)) + 1 := by omega
        have h2 : lo - n = 0 := by omega
        have h3 : lo - (n+1) = 0 := by omega
        rw [h1, h2, h3, List.take_succ_cons, List.drop_zero, List.drop_zero]
      · rw [List.filter_cons_of_neg (by simp [hhi]), ih (n+1)]
        have h1 : hi - n = 0 := by omega
        have h2 : hi - (n+1) = 0 := by omega
        simp [h1, h2]
    · rw [List.filter_cons_of_neg (by simp [hlo]), ih (n+1)]
      by_cases hhi : n < hi
      · have h1 : hi - n = (hi - (n+1)) + 1 := by omega
        have h2 : lo - n = (lo - (n+1)) + 1 := by omega
        rw [h1, h2, List.take_succ_cons, List.drop_succ_cons]
      · have h1 : hi - n = 0 := by omega
        have h2 : hi - (n+1) = 0 := by omega
        simp [h1, h2]

/-- The position-interval window coincides with the slice the rolling
reduction is applied to. -/
lemma posWindow_eq_windowSlice (w : ℕ) (xs : List ℚ) (i : ℕ) :
    posWindow w xs i = windowSlice w xs i := by
  have h : ((xs.enum).filter (fun p => decide (i < p.1 + w) && decide (p.1 ≤ i)))
      = ((xs.enum).filter (fun p => decide (i + 1 - w ≤ p.1) && decide (p.1 < i + 1))) := by
    apply List.filter_congr
    intro x _
    have e1 : decide (i < x.1 + w) = decide (i + 1 - w ≤ x.1) := decide_eq_decide.mpr (by omega)
    have e2 : decide (x.1 ≤ i) = decide (x.1 < i + 1) := decide_eq_decide.mpr (by omega)
    rw [e1, e2]
  have h0 : xs.enum = List.enumFrom 0 xs := rfl
  rw [posWindow, h, h0, enumFrom_filter_slice (i + 1 - w) (i + 1) xs 0]
  simp [windowSlice]

/-- Entry `i` of a rolling reduction is the reduction of its window slice. -/
lemma rollingApply_getD (w : ℕ) (f : List ℚ → ℚ) (xs : List ℚ) (i : ℕ) (h : i < xs.length) :
    (rollingApply w f xs).getD i 0 = f (windowSlice w xs i) := by
  rw [rollingApply, List.getD_eq_getElem?_getD, List.getElem?_map, List.getElem?_range h]
  rfl

/-- Appending rows leaves all earlier rolling entries unchanged. -/
lemma rollingApply_take_append (w : ℕ) (f : List ℚ → ℚ) (xs ys : List ℚ) :
    (rollingApply w f (xs ++ ys)).take xs.length = rollingApply w f xs := by
  rw [rollingApply, rollingApply, ← List.map_take, List.take_range]
  have hmin : xs.length ⊓ (xs ++ ys).length = xs.length := by
    rw [List.length_append]
    exact min_eq_left (Nat.le_add_right _ _)
  rw [hmin]
  apply List.map_congr_left
  intro i hi
  have hi' : i < xs.length := List.mem_range.mp hi
  unfold windowSlice
  rw [List.take_append_of_le_length (by omega)]

/-! ### Claim C1 -/

/-- C1, counterexample: the rolling window is NOT keyed by elapsed time.
In `gapStore` the entry at row 7 (timestamp 20) averages the last 8 rows,
absorbing the observation at hour 0 — 20 hours old, far outside
`(20 − 8, 20]` — and gives 10, while the spec's time-keyed window gives 0.
Removing that out-of-window observation (dropping the first row) changes
the value at timestamp 20 from 10 to 0, violating the claimed invariance. -/
theorem c1_time_window_counterexample :
    (ozone_8hr_rolling gapStore).getD 7 0 = 10 ∧
    rollingMeanTimeSpec 8 gapStore 20 = 0 ∧
    (ozone_8hr_rolling gapStore).getD 7 0 ≠ rollingMeanTimeSpec 8 gapStore 20 ∧
    (ozone_8hr_rolling (gapStore.drop 1)).getD 6 0 = 0 ∧
    (ozone_8hr_rolling (gapStore.drop 1)).getD 6 0 ≠ (ozone_8hr_rolling gapStore).getD 7 0 := by
  refine ⟨?_, ?_, ?_, ?_, ?_⟩ <;>
    norm_num [gapStore, ozone_8hr_rolling, rollingApply, windowSlice, qmean,
      rollingMeanTimeSpec, List.range_succ]

/-- C1, amended: the rolling value at row `i` is the reduction over the
rows at positions in `(i − w, i]` — a count-based trailing window over row
positions, not timestamps. It is invariant to appending observations after
row `i` (so adding an observation at `t_i + 1h` never changes the value at
`t_i`), but across a gap the window can absorb observations older than `w`
hours. -/
theorem c1_rolling_window_positional :
    (∀ (w : ℕ) (f : List ℚ → ℚ) (xs : List ℚ) (i : ℕ), i < xs.length →
      (rollingApply w f xs).getD i 0 = f (posWindow w xs i)) ∧
    (∀ (w : ℕ) (f : List ℚ → ℚ) (xs ys : List ℚ),
      (rollingApply w f (xs ++ ys)).take xs.length = rollingApply w f xs) := by
  constructor
  · intro w f xs i h
    rw [rollingApply_getD w f xs i h, posWindow_eq_windowSlice]
  · intro w f xs ys
    exact rollingApply_take_append w f xs ys

/-- Witness for C1's amended theorem at a concrete input. -/
theorem c1_rolling_window_positional_witness :
    (rollingApply 8 qmean [(50:ℚ), 60, 70]).getD 2 0 = qmean (posWindow 8 [(50:ℚ), 60, 70] 2) ∧
    (rollingApply 8 qmean ([(50:ℚ), 60, 70] ++ [80])).take 3 = rollingApply 8 qmean [(50:ℚ), 60, 70] :=
  ⟨c1_rolling_window_positional.1 8 qmean [(50:ℚ), 60, 70] 2 (by norm_num),
   c1_rolling_window_positional.2 8 qmean [(50:ℚ), 60, 70] [80]⟩

/-! ### Claim C2 -/

/-- C2, counterexample: in the §8 scenario the 8-hour rolling mean at hour
index 7 is 85, not 95, and no flag is produced at hour index 8 (its rolling
mean is 95 ≤ 100). -/
theorem c2_scenario_counterexample :
    (ozone_8hr_rolling c2store).getD 7 0 = 85 ∧
    (ozone_8hr_rolling c2store).getD 7 0 ≠ 95 ∧
    8 ∉ (above_hourly c2store).map CRow.time := by
  refine ⟨?_, ?_, ?_⟩ <;>
    norm_num [c2store, above_hourly, evaluateGT, combinedFrame, mkCRow, ozone_8hr_rolling,
      no2_24hr_rolling_max, rollingApply, windowSlice, qmean, qmax, List.range_succ, localDay]

/-- C2, amended: in the §8 scenario the pipeline's 8-hour rolling means
are `[50, 55, 60, 65, 70, 75, 80, 85, 95, 105]`; the value is 95 at hour
index 8 and 105 at hour index 9, and with threshold 100 under the strict
greater-than comparator the only flagged entry is hour index 9. -/
theorem c2_scenario_values :
    ozone_8hr_rolling c2store = [50, 55, 60, 65, 70, 75, 80, 85, 95, 105] ∧
    (ozone_8hr_rolling c2store).getD 8 0 = 95 ∧
    (ozone_8hr_rolling c2store).getD 9 0 = 105 ∧
    (above_hourly c2store).map CRow.time = [9] := by
  refine ⟨?_, ?_, ?_, ?_⟩ <;>
    norm_num [c2store, above_hourly, evaluateGT, combinedFrame, mkCRow, ozone_8hr_rolling,
      no2_24hr_rolling_max, rollingApply, windowSlice, qmean, qmax, List.range_succ, localDay]

/-! ### Claim C3 -/

/-- The `day` column of `df_daily` is exactly the group-key list of the
`groupby`. -/
lemma df_daily_map_day (store : List Obs) :
    (df_daily store).map DailyRow.day = bucketDays store := by
  simp [df_daily, Function.comp_def]

/-- C3: the daily bucketing produces exactly one bucket per distinct
local calendar day of the input timestamps — none missing, no extras, no
synthesized empty days — ordered ascending. -/
theorem c3_daily_buckets_exact (store : List Obs) :
    List.Sorted (· ≤ ·) ((df_daily store).map DailyRow.day) ∧
    ((df_daily store).map DailyRow.day).Nodup ∧
    (∀ d : ℕ, d ∈ (df_daily store).map DailyRow.day ↔ ∃ o ∈ store, localDay o.time = d) := by
  rw [df_daily_map_day]
  refine ⟨List.sorted_insertionSort _ _, ?_, ?_⟩
  · exact ((List.perm_insertionSort _ _).nodup_iff).mpr (List.nodup_dedup _)
  · intro d
    rw [bucketDays, (List.perm_insertionSort _ _).mem_iff, List.mem_dedup, List.mem_map]

/-- Witness for C3 at the §8 scenario store. -/
theorem c3_daily_buckets_exact_witness :
    List.Sorted (· ≤ ·) ((df_daily c2store).map DailyRow.day) ∧
    (0 : ℕ) ∈ (df_daily c2store).map DailyRow.day :=
  ⟨(c3_daily_buckets_exact c2store).1,
   ((c3_daily_buckets_exact c2store).2.2 0).mpr ⟨⟨0,50,0,0⟩, by simp [c2store], rfl⟩⟩

/-! ### Claim C4 -/

/-- C4: threshold evaluation under the strict greater-than comparator
keeps exactly the entries whose value exceeds the threshold — every entry
with value > T is flagged, no entry with value ≤ T is, and an empty series
yields an empty flag sequence. -/
theorem c4_evaluate_flags_exactly {α : Type} (val : α → ℚ) (T : ℚ) (s : List α) :
    (∀ e, e ∈ evaluateGT val T s ↔ e ∈ s ∧ T < val e) ∧
    evaluateGT val T ([] : List α) = [] := by
  constructor
  · intro e
    simp [evaluateGT, List.mem_filter]
  · rfl

/-- Witness for C4 at a concrete series and threshold. -/
theorem c4_evaluate_flags_exactly_witness :
    ((105 : ℚ) ∈ evaluateGT id 100 [(105 : ℚ)]) ∧ evaluateGT id 100 ([] : List ℚ) = [] :=
  ⟨((c4_evaluate_flags_exactly id 100 [(105 : ℚ)]).1 105).mpr ⟨by simp, by norm_num⟩,
   (c4_evaluate_flags_exactly id 100 ([] : List ℚ)).2⟩

/-! ### Claim C6 -/

/-- Two overlapping response segments: the row at hour 1 appears in both,
with identical values. -/
def c6segs : List (List Obs) := [[⟨0,10,0,0⟩, ⟨1,20,0,0⟩], [⟨1,20,0,0⟩, ⟨2,30,0,0⟩]]

/-- The deduplicated set of the observations in `c6segs`. -/
def c6dedup : List Obs := [⟨0,10,0,0⟩, ⟨1,20,0,0⟩, ⟨2,30,0,0⟩]

/-- C6, counterexample: ingestion does NOT merge records sharing a
timestamp — `pd.concat` keeps both copies of the hour-1 row (4 rows, not
3) — and the rolling series and daily rolling summary of the overlapping
ingestion differ from those of the deduplicated ingestion. -/
theorem c6_ingest_counterexample :
    (ingest c6segs).length = 4 ∧ c6dedup.length = 3 ∧
    ozone_8hr_rolling (ingest c6segs) ≠ ozone_8hr_rolling c6dedup ∧
    (df_daily (ingest c6segs)).map DailyRow.ozone_8hr_rolling_daily_mean
      ≠ (df_daily c6dedup).map DailyRow.ozone_8hr_rolling_daily_mean := by
  refine ⟨rfl, rfl, ?_, ?_⟩ <;>
    norm_num [df_daily, bucketDays, combinedFrame, mkCRow, ozone_8hr_rolling, no2_24hr_rolling_max,
      rollingApply, windowSlice, qmean, qmax, List.range_succ, localDay, ingest, c6segs, c6dedup,
      List.insertionSort, List.orderedInsert, List.dedup_cons_of_mem, List.dedup_cons_of_not_mem]

/-- C6, amended: ingestion concatenates the response segments as-is — the
combined store always has one row per input record, duplicates included —
so re-ingesting an overlapping batch (duplicate timestamps, identical
values) can change the RollingSeries and DailyBucket outputs relative to a
single ingestion of the deduplicated set. -/
theorem c6_ingest_concatenates :
    (∀ segments : List (List Obs), (ingest segments).length = (segments.map List.length).sum) ∧
    ozone_8hr_rolling (ingest c6segs) ≠ ozone_8hr_rolling c6dedup := by
  constructor
  · intro segments
    simp [ingest]
  · norm_num [ozone_8hr_rolling, rollingApply, windowSlice, qmean, List.range_succ,
      ingest, c6segs, c6dedup]

/-! ### Claim C5 -/

/-- Every rolling column has one entry per store row. -/
lemma length_rollingApply (w : ℕ) (f : List ℚ → ℚ) (xs : List ℚ) :
    (rollingApply w f xs).length = xs.length := by
  simp [rollingApply]

/-- Projecting the ozone-rolling column out of the day-filtered combined
frame is the same as filtering the (timestamp, rolling value) pairs by
local day and projecting the values. -/
lemma zipWith_filter_day_proj (d : ℕ) :
    ∀ (s : List Obs) (pr : List (ℚ × ℚ)),
      ((List.zipWith mkCRow s pr).filter (fun r => r.day == d)).map CRow.ozone_8hr_rolling
        = (((s.map Obs.time).zip (pr.map Prod.fst)).filter (fun p => localDay p.1 == d)).map Prod.snd := by
  intro s
  induction s with
  | nil => intro pr; simp
  | cons o tl ih =>
    intro pr
    cases pr with
    | nil => simp
    | cons p prt =>
      simp only [List.zipWith_cons_cons, List.map_cons, List.zip_cons_cons]
      by_cases h : (localDay o.time == d) = true
      · simp [List.filter_cons, mkCRow, h, ih prt]
      · simp [List.filter_cons, mkCRow, h, ih prt]

/-- Projecting the NO2-rolling-max column out of the day-filtered
combined frame is the same as filtering the (timestamp, rolling max)
pairs by local day and projecting the values. -/
lemma zipWith_filter_day_proj_no2 (d : ℕ) :
    ∀ (s : List Obs) (pr : List (ℚ × ℚ)),
      ((List.zipWith mkCRow s pr).filter (fun r => r.day == d)).map CRow.no2_24hr_rolling_max
        = (((s.map Obs.time).zip (pr.map Prod.snd)).filter (fun p => localDay p.1 == d)).map Prod.snd := by
  intro s
  induction s with
  | nil => intro pr; simp
  | cons o tl ih =>
    intro pr
    cases pr with
    | nil => simp
    | cons p prt =>
      simp only [List.zipWith_cons_cons, List.map_cons, List.zip_cons_cons]
      by_cases h : (localDay o.time == d) = true
      · simp [List.filter_cons, mkCRow, h, ih prt]
      · simp [List.filter_cons, mkCRow, h, ih prt]

/-- The day-filtered rolling column of `combined_df` coincides with the
rolling series restricted to the timestamps of that local day. -/
lemma filter_day_rolling (store : List Obs) (d : ℕ) :
    ((combinedFrame store).filter (fun r => r.day == d)).map CRow.ozone_8hr_rolling
      = ((ozoneRollingSeries store).filter (fun p => localDay p.1 == d)).map Prod.snd := by
  rw [combinedFrame, zipWith_filter_day_proj d store, ozoneRollingSeries,
    List.map_fst_zip]
  simp [ozone_8hr_rolling, no2_24hr_rolling_max, length_rollingApply]

/-- As `filter_day_rolling`, for the 24-hour NO2 rolling max column. -/
lemma filter_day_rolling_no2 (store : List Obs) (d : ℕ) :
    ((combinedFrame store).filter (fun r => r.day == d)).map CRow.no2_24hr_rolling_max
      = ((no2RollingSeries store).filter (fun p => localDay p.1 == d)).map Prod.snd := by
  rw [combinedFrame, zipWith_filter_day_proj_no2 d store, no2RollingSeries,
    List.map_snd_zip]
  simp [ozone_8hr_rolling, no2_24hr_rolling_max, length_rollingApply]

/-- Store exhibiting that the daily means of the rolling series differ
from the daily summaries of the raw values: ozone 0 then 80 and NO2 0
then 40 within one local day. -/
def c5store : List Obs := [⟨0,0,0,0⟩, ⟨1,80,0,40⟩]

/-- C5: for both configured rolling series, each day bucket's rolling
summary is the mean of the rolling-series values whose timestamps fall
in that local day, and on `c5store` the ozone rolling summary (20)
differs from the daily mean of the raw hourly values (40), as does the
NO2 rolling summary (20) from the raw daily max (40). -/
theorem c5_daily_rolling_summary :
    (∀ (store : List Obs) (b : DailyRow), b ∈ df_daily store →
      b.ozone_8hr_rolling_daily_mean
        = qmean (((ozoneRollingSeries store).filter
            (fun p => localDay p.1 == b.day)).map Prod.snd)) ∧
    (∀ (store : List Obs) (b : DailyRow), b ∈ df_daily store →
      b.no2_24hr_rolling_daily_mean
        = qmean (((no2RollingSeries store).filter
            (fun p => localDay p.1 == b.day)).map Prod.snd)) ∧
    ((df_daily c5store).map DailyRow.ozone_8hr_rolling_daily_mean = [20] ∧
     (df_daily c5store).map DailyRow.daily_ozone_mean = [40] ∧
     (df_daily c5store).map DailyRow.no2_24hr_rolling_daily_mean = [20] ∧
     (df_daily c5store).map DailyRow.daily_no2_max = [40] ∧ (20 : ℚ) ≠ 40) := by
  refine ⟨?_, ?_, ?_⟩
  · intro store b hb
    rw [df_daily] at hb
    obtain ⟨d, _, rfl⟩ := List.mem_map.mp hb
    show qmean (((combinedFrame store).filter (fun r => r.day == d)).map CRow.ozone_8hr_rolling)
      = _
    rw [filter_day_rolling store d]
  · intro store b hb
    rw [df_daily] at hb
    obtain ⟨d, _, rfl⟩ := List.mem_map.mp hb
    show qmean (((combinedFrame store).filter (fun r => r.day == d)).map CRow.no2_24hr_rolling_max)
      = _
    rw [filter_day_rolling_no2 store d]
  · refine ⟨?_, ?_, ?_, ?_, by norm_num⟩ <;>
      norm_num [df_daily, bucketDays, combinedFrame, mkCRow, ozone_8hr_rolling,
        no2_24hr_rolling_max, rollingApply, windowSlice, qmean, qmax, List.range_succ, localDay,
        c5store, List.insertionSort, List.orderedInsert, List.dedup_cons_of_mem,
        List.dedup_cons_of_not_mem]

/-- Witness for C5 at `c5store` and its single bucket, exercising both
the ozone and the NO2 rolling-summary conjuncts. -/
theorem c5_daily_rolling_summary_witness :
    ((⟨0, 40, 0, 20, 40, 20⟩ : DailyRow).ozone_8hr_rolling_daily_mean
      = qmean (((ozoneRollingSeries c5store).filter
          (fun p => localDay p.1 == (⟨0, 40, 0, 20, 40, 20⟩ : DailyRow).day)).map Prod.snd)) ∧
    ((⟨0, 40, 0, 20, 40, 20⟩ : DailyRow).no2_24hr_rolling_daily_mean
      = qmean (((no2RollingSeries c5store).filter
          (fun p => localDay p.1 == (⟨0, 40, 0, 20, 40, 20⟩ : DailyRow).day)).map Prod.snd)) :=
  ⟨c5_daily_rolling_summary.1 c5store ⟨0, 40, 0, 20, 40, 20⟩ (by
    norm_num [df_daily, bucketDays, combinedFrame, mkCRow, ozone_8hr_rolling,
      no2_24hr_rolling_max, rollingApply, windowSlice, qmean, qmax, List.range_succ, localDay,
      c5store, List.insertionSort, List.orderedInsert, List.dedup_cons_of_mem,
      List.dedup_cons_of_not_mem]),
   c5_daily_rolling_summary.2.1 c5store ⟨0, 40, 0, 20, 40, 20⟩ (by
    norm_num [df_daily, bucketDays, combinedFrame, mkCRow, ozone_8hr_rolling,
      no2_24hr_rolling_max, rollingApply, windowSlice, qmean, qmax, List.range_succ, localDay,
      c5store, List.insertionSort, List.orderedInsert, List.dedup_cons_of_mem,
      List.dedup_cons_of_not_mem])⟩

/-! ### Claim C7 -/

/-- One local day of NO2 data: zero for four hours, then 50 µg/m³. -/
def c7store : List Obs := [⟨0,0,0,0⟩, ⟨1,0,0,0⟩, ⟨2,0,0,0⟩, ⟨3,0,0,0⟩, ⟨4,0,0,50⟩]

/-- C7, counterexample: the 40 µg/m³ NO2 evaluation is NOT applied at
daily resolution to `no2_24hr_rolling_daily_mean`. On `c7store` that daily
summary is 10 ≤ 40, so daily-resolution evaluation would flag nothing —
yet the code flags the hourly entry at hour 4 of the 24-hr rolling max
series. -/
theorem c7_no2_threshold_counterexample :
    (above_no2 c7store).map CRow.time = [4] ∧
    (df_daily c7store).map DailyRow.no2_24hr_rolling_daily_mean = [10] ∧
    evaluateGT DailyRow.no2_24hr_rolling_daily_mean 40 (df_daily c7store) = [] ∧
    ¬ (40 < (10 : ℚ)) := by
  refine ⟨?_, ?_, ?_, by norm_num⟩ <;>
    norm_num [above_no2, above, evaluateGT, df_daily, bucketDays, combinedFrame, mkCRow,
      ozone_8hr_rolling, no2_24hr_rolling_max, rollingApply, windowSlice, qmean, qmax,
      List.range_succ, localDay, c7store, List.insertionSort, List.orderedInsert,
      List.dedup_cons_of_mem, List.dedup_cons_of_not_mem, List.filter_cons]

/-- C7, amended: the 40 µg/m³ guideline is evaluated at hourly resolution
against the 24-hr rolling max column of the combined frame (one flag per
qualifying hour); the daily mean of the rolling max is computed but never
threshold-evaluated; the NO2 daily max is evaluated against 20 µg/m³ at
daily resolution (one flag per qualifying day). -/
theorem c7_no2_thresholds_resolution :
    (∀ (store : List Obs) (r : CRow),
      r ∈ above_no2 store ↔ r ∈ combinedFrame store ∧ 40 < r.no2_24hr_rolling_max) ∧
    (∀ (store : List Obs) (b : DailyRow),
      b ∈ above store ↔ b ∈ df_daily store ∧ 20 < b.daily_no2_max) := by
  constructor
  · intro store r
    simp [above_no2, evaluateGT, List.mem_filter]
  · intro store b
    simp [above, evaluateGT, List.mem_filter]

/-- Witness for C7's amended theorem on `c7store`. -/
theorem c7_no2_thresholds_resolution_witness :
    (⟨4, 0, 0, 50, 0, 0, 50⟩ : CRow) ∈ above_no2 c7store ∧
    (⟨0, 0, 0, 0, 50, 10⟩ : DailyRow) ∈ above c7store :=
  ⟨(c7_no2_thresholds_resolution.1 c7store ⟨4, 0, 0, 50, 0, 0, 50⟩).mpr
    ⟨by
      norm_num [combinedFrame, mkCRow, ozone_8hr_rolling, no2_24hr_rolling_max, rollingApply,
        windowSlice, qmean, qmax, List.range_succ, localDay, c7store],
     by norm_num⟩,
   (c7_no2_thresholds_resolution.2 c7store ⟨0, 0, 0, 0, 50, 10⟩).mpr
    ⟨by
      norm_num [df_daily, bucketDays, combinedFrame, mkCRow, ozone_8hr_rolling,
        no2_24hr_rolling_max, rollingApply, windowSlice, qmean, qmax, List.range_succ, localDay,
        c7store, List.insertionSort, List.orderedInsert, List.dedup_cons_of_mem,
        List.dedup_cons_of_not_mem],
     by norm_num⟩⟩

/-! ### Claim C8 -/

/-- Zipping rows with their rolling values and projecting the raw part
recovers the rows. -/
lemma zipWith_raw : ∀ (s : List Obs) (pr : List (ℚ × ℚ)), s.length ≤ pr.length →
    (List.zipWith mkCRow s pr).map CRow.raw = s := by
  intro s
  induction s with
  | nil => intro pr _; simp
  | cons o tl ih =>
    intro pr h
    cases pr with
    | nil => simp at h
    | cons p prt =>
      simp only [List.zipWith_cons_cons, List.map_cons]
      rw [ih prt (by simpa using h)]
      rfl

/-- C8, counterexample: the rolling stage does not leave the store's
columns unchanged — `combined_df` goes from 4 columns to 6. -/
theorem c8_columns_change_counterexample :
    columns_after_rolling ≠ base_columns ∧
    base_columns.length = 4 ∧ columns_after_rolling.length = 6 := by
  refine ⟨?_, rfl, rfl⟩
  decide

/-- C8, amended: the rolling stage writes its two derived columns into
`combined_df` in place — the column set grows by `ozone_8hr_rolling` and
`no2_24hr_rolling_max` — but the ingested rows, their order and their raw
column values are unchanged, and the daily stage produces its buckets as a
separate new structure. -/
theorem c8_raw_data_preserved :
    (∀ store : List Obs, (combinedFrame store).map CRow.raw = store) ∧
    columns_after_rolling = base_columns ++ ["ozone_8hr_rolling", "no2_24hr_rolling_max"] := by
  constructor
  · intro store
    apply zipWith_raw
    rw [List.length_zip]
    simp [ozone_8hr_rolling, no2_24hr_rolling_max, length_rollingApply]
  · rfl

/-! ### Claim C9 -/

/-- C9: the run reaches the no-data outcome exactly when ingestion yields
zero observations; in that case no rolling, daily or threshold computation
is performed and the condition is signalled as a recoverable outcome. -/
theorem c9_empty_batch_no_data (segments : List (List Obs)) :
    runPipeline segments = PipelineResult.noData ↔ ingest segments = [] := by
  simp only [runPipeline]
  split
  · next h => simp [List.isEmpty_iff.mp h]
  · next h =>
      rw [List.isEmpty_iff] at h
      simp [h]

/-- Witness for C9: the empty batch produces the no-data outcome. -/
theorem c9_empty_batch_no_data_witness : runPipeline [] = PipelineResult.noData :=
  (c9_empty_batch_no_data []).mpr rfl

/-! ### Claim C10 -/

set_option maxHeartbeats 2000000

/-- Eight hourly observations spanning local days 0 (hours 17–20 UTC) and
1 (hours 21–24 UTC), all zero. -/
def c10a : List Obs :=
  [⟨17,0,0,0⟩, ⟨18,0,0,0⟩, ⟨19,0,0,0⟩, ⟨20,0,0,0⟩, ⟨21,0,0,0⟩, ⟨22,0,0,0⟩, ⟨23,0,0,0⟩, ⟨24,0,0,0⟩]

/-- `c10a` with one changed observation: ozone 80 at hour 20, the last
hour of local day 0. -/
def c10b : List Obs :=
  [⟨17,0,0,0⟩, ⟨18,0,0,0⟩, ⟨19,0,0,0⟩, ⟨20,80,0,0⟩, ⟨21,0,0,0⟩, ⟨22,0,0,0⟩, ⟨23,0,0,0⟩, ⟨24,0,0,0⟩]

/-- Placeholder row for `getD` on daily buckets. -/
def dRow : DailyRow := ⟨0, 0, 0, 0, 0, 0⟩

/-- C10: day 1's rolling daily summary depends on day 0's observations.
`c10a` and `c10b` differ only in the observation at index 3 (hour 20,
local day 0), yet the day-1 bucket's `ozone_8hr_rolling_daily_mean`
differs between the two runs (0 versus 533/42) while all of day 1's
raw-value summaries coincide. -/
theorem c10_prev_day_dependence :
    c10a.eraseIdx 3 = c10b.eraseIdx 3 ∧
    (c10a.getD 3 ⟨0,0,0,0⟩).time = 20 ∧ (c10b.getD 3 ⟨0,0,0,0⟩).time = 20 ∧
    localDay 20 = 0 ∧ localDay 21 = 1 ∧
    (df_daily c10a).map DailyRow.day = [0, 1] ∧
    (df_daily c10b).map DailyRow.day = [0, 1] ∧
    ((df_daily c10a).getD 1 dRow).ozone_8hr_rolling_daily_mean
      ≠ ((df_daily c10b).getD 1 dRow).ozone_8hr_rolling_daily_mean ∧
    ((df_daily c10a).getD 1 dRow).daily_ozone_mean
      = ((df_daily c10b).getD 1 dRow).daily_ozone_mean ∧
    ((df_daily c10a).getD 1 dRow).daily_pm_average
      = ((df_daily c10b).getD 1 dRow).daily_pm_average ∧
    ((df_daily c10a).getD 1 dRow).daily_no2_max
      = ((df_daily c10b).getD 1 dRow).daily_no2_max := by
  refine ⟨rfl, rfl, rfl, rfl, rfl, ?_, ?_, ?_, ?_, ?_, ?_⟩ <;>
    norm_num [df_daily, bucketDays, combinedFrame, mkCRow, ozone_8hr_rolling,
      no2_24hr_rolling_max, rollingApply, windowSlice, qmean, qmax, List.range_succ, localDay,
      c10a, c10b, dRow, List.insertionSort, List.orderedInsert, List.dedup_cons_of_mem,
      List.dedup_cons_of_not_mem]
